import Mathlib

/-!
Verification of the langgraph prebuilt tool dispatcher
(`libs/langgraph/langgraph/prebuilt/tool_node.py`) and of the checkpoint
store contract exercised by `libs/checkpoint/tests/test_memory.py`.

The dispatcher is embedded shallowly: tools are pure functions that either
return a result record or fail with a string describing the exception;
the per-trigger fan-out is denoted by an order-preserving map that
propagates the first failure, matching the observable semantics of
`executor.map` / `asyncio.gather` result collection.
-/

namespace LangGraph

/-- A tool-call invocation: `name`, structured `args` (opaque here), `id`.
Mirrors `langchain_core.messages.ToolCall` as used by `tool_node.py`. -/
structure ToolCall where
  name : String
  args : String
  id : String
deriving DecidableEq

/-- A result record: `ToolMessage(content, name=..., tool_call_id=...)`. -/
structure ToolMessage where
  content : String
  name : Option String
  tool_call_id : String
deriving DecidableEq

/-- The invocation-bearing carrier: an `AIMessage` with its `tool_calls`. -/
structure AIMessage where
  tool_calls : List ToolCall
deriving DecidableEq

/-- Any message: either an `AIMessage` carrier or some other message kind
(which has no `tool_calls` attribute). -/
inductive AnyMessage where
| ai (msg : AIMessage)
| other
deriving DecidableEq

/-- The two accepted trigger shapes of `ToolNode._parse_input` and
`tools_condition`: a bare message sequence, or a keyed container whose
`"messages"` entry is the given list (a missing key is the empty list,
matching `input.get("messages", [])`). -/
inductive InputShape where
| listInput (msgs : List AnyMessage)
| dictInput (messages : List AnyMessage)
deriving DecidableEq

/-- The two output shapes produced by `ToolNode._func`. -/
inductive OutputShape where
| listOutput (records : List ToolMessage)
| dictOutput (messages : List ToolMessage)
deriving DecidableEq

/-- The `output_type` tag returned by `_parse_input` ("list" or "dict"). -/
inductive OutputType where
| list
| dict
deriving DecidableEq

/-- A tool is an opaque callable: on an invocation it either returns a
`ToolMessage` (what `BaseTool.invoke` yields for a `tool_call` input) or
raises, denoted by `Except.error` carrying the exception description. -/
def Tool : Type := ToolCall → Except String ToolMessage

/-- `INVALID_TOOL_NAME_ERROR_TEMPLATE.format(...)` from `tool_node.py`. -/
def INVALID_TOOL_NAME_ERROR_TEMPLATE (requested_tool : String) (available_tools : String) : String :=
  "Error: " ++ requested_tool ++ " is not a valid tool, try one of [" ++ available_tools ++ "]."

/-- `TOOL_CALL_ERROR_TEMPLATE.format(error=...)` from `tool_node.py`:
note the space after the newline in the source string
`"Error: {error}\n Please fix your mistakes."`. -/
def TOOL_CALL_ERROR_TEMPLATE (error : String) : String :=
  "Error: " ++ error ++ "\n Please fix your mistakes."

/-- The `ToolNode` state after construction: the insertion-ordered action
catalog `tools_by_name` and the `handle_tool_errors` flag. -/
structure ToolNode where
  tools_by_name : List (String × Tool)
  handle_tool_errors : Bool

/-- Dictionary lookup `self.tools_by_name[name]` / `name in self.tools_by_name`. -/
def lookupTool (ts : List (String × Tool)) (n : String) : Option Tool :=
  ts.lookup n

/-- `self.tools_by_name.keys()` in insertion order. -/
def toolNames (ts : List (String × Tool)) : List String :=
  ts.map Prod.fst

/-- `ToolNode._validate_tool_call`: `None` when the requested name is in the
catalog, otherwise the templated unknown-tool `ToolMessage`. -/
def ToolNode.validate_tool_call (node : ToolNode) (call : ToolCall) : Option ToolMessage :=
  if (lookupTool node.tools_by_name call.name).isNone then
    some ⟨INVALID_TOOL_NAME_ERROR_TEMPLATE call.name
            (String.intercalate ", " (toolNames node.tools_by_name)),
          some call.name, call.id⟩
  else
    none

/-- `ToolNode._run_one` (the async `_arun_one` has the same denotation):
unknown tool gives the invalid-tool record; otherwise the tool is invoked,
and a raised exception is either converted into the templated error record
(when `handle_tool_errors`) or re-raised. -/
def ToolNode.run_one (node : ToolNode) (call : ToolCall) : Except String ToolMessage :=
  match node.validate_tool_call call with
  | some invalid_tool_message => .ok invalid_tool_message
  | none =>
    match lookupTool node.tools_by_name call.name with
    | none => .error "KeyError"
    | some tool =>
      match tool call with
      | .ok result => .ok result
      | .error e =>
        if node.handle_tool_errors then
          .ok ⟨TOOL_CALL_ERROR_TEMPLATE e, some call.name, call.id⟩
        else
          .error e

/-- `ToolNode._parse_input`: a bare list takes its last element (an empty
list raises IndexError); a dict takes the last element of a non-empty
`"messages"` entry (otherwise `ValueError("No message found in input")`);
in both cases that element must be an `AIMessage`. -/
def ToolNode.parse_input (input : InputShape) : Except String (AIMessage × OutputType) :=
  match input with
  | .listInput msgs =>
    match msgs.getLast? with
    | none => .error "IndexError: list index out of range"
    | some (.ai message) => .ok (message, .list)
    | some .other => .error "Last message is not an AIMessage"
  | .dictInput messages =>
    match messages.getLast? with
    | none => .error "No message found in input"
    | some (.ai message) => .ok (message, .dict)
    | some .other => .error "Last message is not an AIMessage"

/-- Denotation of collecting `executor.map` / `asyncio.gather` results in
input order: one result per element, with the first exception (in input
order) propagating. -/
def mapEx (f : ToolCall → Except String ToolMessage) :
    List ToolCall → Except String (List ToolMessage)
  | [] => .ok []
  | a :: as =>
    match f a with
    | .error e => .error e
    | .ok b =>
      match mapEx f as with
      | .error e => .error e
      | .ok bs => .ok (b :: bs)

/-- `outputs if output_type == "list" else {"messages": outputs}`. -/
def assemble (ty : OutputType) (outputs : List ToolMessage) : OutputShape :=
  match ty with
  | .list => .listOutput outputs
  | .dict => .dictOutput outputs

/-- `ToolNode._func` (and `_afunc`, identical denotation): parse the
trigger, run every invocation of the carrier, re-wrap in the input shape. -/
def ToolNode.func (node : ToolNode) (input : InputShape) : Except String OutputShape :=
  match ToolNode.parse_input input with
  | .error e => .error e
  | .ok (message, output_type) =>
    match mapEx node.run_one message.tool_calls with
    | .error e => .error e
    | .ok outputs => .ok (assemble output_type outputs)

/-- `hasattr(m, "tool_calls") and len(m.tool_calls) > 0`: only an
`AIMessage` has the attribute. -/
def hasCalls : AnyMessage → Bool
  | .ai m => 0 < m.tool_calls.length
  | .other => false

/-- `tools_condition`: route to `"tools"` when the last message has
non-empty `tool_calls`, `"__end__"` otherwise; an empty list state raises
IndexError and a dict state with no / empty `"messages"` raises ValueError. -/
def tools_condition (state : InputShape) : Except String String :=
  match state with
  | .listInput msgs =>
    match msgs.getLast? with
    | none => .error "IndexError: list index out of range"
    | some ai_message => .ok (if hasCalls ai_message then "tools" else "__end__")
  | .dictInput messages =>
    match messages.getLast? with
    | none => .error "No messages found in input state to tool_edge"
    | some ai_message => .ok (if hasCalls ai_message then "tools" else "__end__")

/-- Terminal state of one invocation, per the spec state machine:
rejected-unknown-action, failed (the resolved tool raised), or succeeded. -/
inductive CallKind where
| unknown
| failure
| success
deriving DecidableEq

/-- Classify an invocation against a node's catalog. -/
def callKind (node : ToolNode) (call : ToolCall) : CallKind :=
  match lookupTool node.tools_by_name call.name with
  | none => .unknown
  | some tool =>
    match tool call with
    | .error _ => .failure
    | .ok _ => .success

/-- The result record one invocation yields under error interception:
the unknown-tool record, the tool's own output, or the templated
execution-failure record. -/
def expectedRecord (node : ToolNode) (call : ToolCall) : ToolMessage :=
  match lookupTool node.tools_by_name call.name with
  | none =>
    ⟨INVALID_TOOL_NAME_ERROR_TEMPLATE call.name
        (String.intercalate ", " (toolNames node.tools_by_name)),
      some call.name, call.id⟩
  | some tool =>
    match tool call with
    | .ok result => result
    | .error e => ⟨TOOL_CALL_ERROR_TEMPLATE e, some call.name, call.id⟩

/-- A trigger is well formed when it resolves to an `AIMessage` carrier:
a bare list whose last element is an `AIMessage`, or a keyed container
whose `"messages"` entry is non-empty with an `AIMessage` last. -/
def wellFormedTrigger : InputShape → Bool
  | .listInput msgs =>
    match msgs.getLast? with
    | some (.ai _) => true
    | _ => false
  | .dictInput messages =>
    match messages.getLast? with
    | some (.ai _) => true
    | _ => false

/-- The message list a state carries, for stating `tools_condition` facts. -/
def stateMessages : InputShape → List AnyMessage
  | .listInput msgs => msgs
  | .dictInput messages => messages

/-!
Checkpoint store. The `MemorySaver` implementation itself is not part of
this repository snapshot (only `tests/test_memory.py` is), so the store is
modelled from the spec, sections 3, 4.1 and 8.
-/

/-- Modelled from the spec: a metadata value. `CheckpointMetadata` values
are strings (`source`), integers (`step`, `score`), `None`, or nested
mappings such as `writes`, compared by deep structural equality; the
nested mappings occurring in the spec scenarios are string-to-string. -/
inductive MetaV where
| s (v : String)
| i (v : Int)
| null
| m (fields : List (String × String))
deriving DecidableEq

/-- Modelled from the spec: `CheckpointMetadata` as a flat mapping with
recognized and caller-defined keys, here an ordered association list. -/
abbrev Metadata : Type := List (String × MetaV)

/-- Modelled from the spec: filter matching — the metadata matches iff
every key in the filter is present in the metadata with a structurally
equal value; the empty filter matches everything. -/
def metadataMatches (filter : Metadata) (md : Metadata) : Bool :=
  filter.all (fun kv => md.lookup kv.1 == some kv.2)

/-- Modelled from the spec: one stored checkpoint entry, addressed by
`(thread_id, checkpoint_ns, checkpoint_id)` and carrying its metadata
(the snapshot payload is opaque and irrelevant to the listed claims). -/
structure StoredCheckpoint where
  thread_id : String
  checkpoint_ns : String
  checkpoint_id : String
  metadata : Metadata
deriving DecidableEq

/-- Modelled from the spec: the in-memory store contents, flat and keyed
by address (the reference two-level mapping flattened). -/
abbrev MemStore : Type := List StoredCheckpoint

/-- Two entries share a storage address. -/
def sameAddr (a b : StoredCheckpoint) : Bool :=
  a.thread_id == b.thread_id && a.checkpoint_ns == b.checkpoint_ns
    && a.checkpoint_id == b.checkpoint_id

/-- Modelled from the spec: `put` stores under
`(thread_id, checkpoint_ns, checkpoint.id)`; writing the same id twice
replaces that entry (idempotent upsert). -/
def putCheckpoint (store : MemStore) (e : StoredCheckpoint) : MemStore :=
  if store.any (sameAddr e) then
    store.map (fun x => if sameAddr e x then e else x)
  else
    store ++ [e]

/-- Modelled from the spec: the address prefix of a `list` query —
an optional `thread_id` and an optional `checkpoint_ns`. -/
structure ListQuery where
  thread_id : Option String
  checkpoint_ns : Option String
deriving DecidableEq

/-- Modelled from the spec: `checkpoint_ns` defaults to the root
namespace `""` when the caller does not supply one. -/
def scopedNs (q : ListQuery) : String :=
  (q.checkpoint_ns).getD ""

/-- An entry lies in the scope of a query: thread matches when requested,
and the namespace equals the (defaulted) requested namespace. -/
def inScope (q : ListQuery) (e : StoredCheckpoint) : Bool :=
  (match q.thread_id with
   | some t => e.thread_id == t
   | none => true)
  && e.checkpoint_ns == scopedNs q

/-- Modelled from the spec: `list(address_prefix, filter)` — every stored
entry in scope whose metadata matches the filter, yielded newest-first
(descending checkpoint id). -/
def listCheckpoints (store : MemStore) (q : ListQuery) (filter : Metadata) :
    List StoredCheckpoint :=
  List.insertionSort (fun a b => b.checkpoint_id ≤ a.checkpoint_id)
    (store.filter (fun e => inScope q e && metadataMatches filter e.metadata))

/-! Scenario constants from `tests/test_memory.py` (`test_search`). -/

/-- `metadata_1` of the memory-saver test. -/
def metadata_1 : Metadata :=
  [("source", .s "input"), ("step", .i 2), ("writes", .m []), ("score", .i 1)]

/-- `metadata_2` of the memory-saver test. -/
def metadata_2 : Metadata :=
  [("source", .s "loop"), ("step", .i 1), ("writes", .m [("foo", "bar")]), ("score", .null)]

/-- `metadata_3` of the memory-saver test. -/
def metadata_3 : Metadata := []

/-- Checkpoint put under `(thread-1, "", id=1)` with `metadata_1`. -/
def chk_1 : StoredCheckpoint := ⟨"thread-1", "", "1", metadata_1⟩

/-- Checkpoint put under `(thread-2, "", id=2)` with `metadata_2`. -/
def chk_2 : StoredCheckpoint := ⟨"thread-2", "", "2", metadata_2⟩

/-- Checkpoint put under `(thread-2, "inner", id=2-inner)` with `metadata_3`. -/
def chk_3 : StoredCheckpoint := ⟨"thread-2", "inner", "2-inner", metadata_3⟩

/-- The store after the three `put` calls of `test_search`. -/
def scenarioStore : MemStore :=
  putCheckpoint (putCheckpoint (putCheckpoint [] chk_1) chk_2) chk_3

/-! Concrete dispatcher fixtures used in witnesses and counterexamples. -/

/-- A tool that always succeeds, echoing its invocation. -/
def searchTool : Tool :=
  fun call => .ok ⟨"result for " ++ call.args, some "search", call.id⟩

/-- A tool that always raises, with description `boom`. -/
def failingTool : Tool :=
  fun _ => .error "boom"

/-- A node whose catalog has `search` and a failing `calc`, with error
interception enabled. -/
def nodeBoth : ToolNode := ⟨[("search", searchTool), ("calc", failingTool)], true⟩

/-- A node whose catalog has only the failing `calc`, interception enabled. -/
def nodeCalc : ToolNode := ⟨[("calc", failingTool)], true⟩

/-- A node whose catalog has only the failing `calc`, interception disabled. -/
def nodeCalcOff : ToolNode := ⟨[("calc", failingTool)], false⟩

/-- A node whose catalog has only `search`, interception enabled. -/
def nodeSearch : ToolNode := ⟨[("search", searchTool)], true⟩

/-- An invocation of the failing `calc` tool. -/
def callCalc : ToolCall := ⟨"calc", "", "call-1"⟩

/-- The three invocations of Scenario C: two valid `search` calls around
one call naming the nonexistent action `weather`. -/
def callsScenarioC : List ToolCall :=
  [⟨"search", "a", "call-1"⟩, ⟨"weather", "b", "call-w"⟩, ⟨"search", "c", "call-3"⟩]

/-! Helper lemmas. -/

/-- With error interception on, one invocation always yields its expected
record and never raises. -/
theorem run_one_handled (node : ToolNode) (call : ToolCall)
    (hh : node.handle_tool_errors = true) :
    node.run_one call = .ok (expectedRecord node call) := by
  unfold ToolNode.run_one ToolNode.validate_tool_call expectedRecord
  cases hl : lookupTool node.tools_by_name call.name with
  | none => simp [hl]
  | some tool =>
    cases hc : tool call with
    | ok r => simp [hl, hc]
    | error e => simp [hl, hc, hh]

/-- With error interception off, an invocation whose resolved tool raises
makes `run_one` raise. -/
theorem run_one_unhandled_failure (node : ToolNode) (call : ToolCall)
    (hh : node.handle_tool_errors = false)
    (hf : callKind node call = .failure) :
    ∃ e, node.run_one call = .error e := by
  unfold callKind at hf
  unfold ToolNode.run_one ToolNode.validate_tool_call
  cases hl : lookupTool node.tools_by_name call.name with
  | none => simp [hl] at hf
  | some tool =>
    cases hc : tool call with
    | ok r => simp [hl, hc] at hf
    | error e => exact ⟨e, by simp [hl, hc, hh]⟩

/-- If every element maps to a success, the fan-out collects them in input
order. -/
theorem mapEx_all_ok {f : ToolCall → Except String ToolMessage}
    {g : ToolCall → ToolMessage} :
    ∀ {l : List ToolCall}, (∀ a ∈ l, f a = .ok (g a)) →
      mapEx f l = .ok (l.map g) := by
  intro l
  induction l with
  | nil => intro _; rfl
  | cons a t ih =>
    intro h
    have ha := h a (List.mem_cons_self a t)
    have ht := ih (fun x hx => h x (List.mem_cons_of_mem a hx))
    simp [mapEx, ha, ht]

/-- If some element raises, the fan-out raises. -/
theorem mapEx_error_of_mem {f : ToolCall → Except String ToolMessage}
    {l : List ToolCall} (h : ∃ a ∈ l, ∃ e, f a = .error e) :
    ∃ e, mapEx f l = .error e := by
  induction l with
  | nil => simp at h
  | cons a t ih =>
    cases hfa : f a with
    | error e2 => exact ⟨e2, by simp [mapEx, hfa]⟩
    | ok b =>
      obtain ⟨x, hx, e, hfx⟩ := h
      have hxt : x ∈ t := by
        rcases List.mem_cons.mp hx with h1 | h2
        · subst h1; rw [hfa] at hfx; cases hfx
        · exact h2
      obtain ⟨e3, h3⟩ := ih ⟨x, hxt, e, hfx⟩
      exact ⟨e3, by simp [mapEx, hfa, h3]⟩

/-- Every invocation reaches exactly one terminal state, so the three
category counts partition the invocation list. -/
theorem callKind_partition (node : ToolNode) (l : List ToolCall) :
    l.countP (fun c => callKind node c == CallKind.unknown)
      + l.countP (fun c => callKind node c == CallKind.failure)
      + l.countP (fun c => callKind node c == CallKind.success)
      = l.length := by
  induction l with
  | nil => rfl
  | cons a t ih =>
    cases h : callKind node a <;> simp [List.countP_cons, h] <;> omega

/-- Parsing a bare list yields the `list` output tag. -/
theorem parse_input_list_ty (msgs : List AnyMessage) (m : AIMessage) (ty : OutputType)
    (h : ToolNode.parse_input (.listInput msgs) = .ok (m, ty)) : ty = .list := by
  cases hl : msgs.getLast? with
  | none => simp [ToolNode.parse_input, hl] at h
  | some msg =>
    cases msg with
    | ai m2 => simp [ToolNode.parse_input, hl] at h; simp_all
    | other => simp [ToolNode.parse_input, hl] at h

/-- Parsing a keyed container yields the `dict` output tag. -/
theorem parse_input_dict_ty (msgs : List AnyMessage) (m : AIMessage) (ty : OutputType)
    (h : ToolNode.parse_input (.dictInput msgs) = .ok (m, ty)) : ty = .dict := by
  cases hl : msgs.getLast? with
  | none => simp [ToolNode.parse_input, hl] at h
  | some msg =>
    cases msg with
    | ai m2 => simp [ToolNode.parse_input, hl] at h; simp_all
    | other => simp [ToolNode.parse_input, hl] at h

/-- Membership in a `list` result: in the store, in scope, matching. -/
theorem mem_listCheckpoints (store : MemStore) (q : ListQuery) (filter : Metadata)
    (e : StoredCheckpoint) :
    e ∈ listCheckpoints store q filter ↔
      e ∈ store ∧ inScope q e = true ∧ metadataMatches filter e.metadata = true := by
  unfold listCheckpoints
  simp [List.mem_filter, and_assoc]

/-! Claim theorems. -/

/-- C1: for every trigger whose carrier holds K invocations, dispatch with
error interception enabled returns exactly K result records in input
order, each invocation yielding its category's record (unknown-action,
execution-failure, or success), and the three category counts partition K. -/
theorem dispatch_isolated_shape_and_counts (node : ToolNode)
    (input : InputShape) (message : AIMessage) (ty : OutputType)
    (hh : node.handle_tool_errors = true)
    (hp : ToolNode.parse_input input = .ok (message, ty)) :
    node.func input = .ok (assemble ty (message.tool_calls.map (expectedRecord node))) ∧
    (message.tool_calls.map (expectedRecord node)).length = message.tool_calls.length ∧
    message.tool_calls.countP (fun c => callKind node c == CallKind.unknown)
      + message.tool_calls.countP (fun c => callKind node c == CallKind.failure)
      + message.tool_calls.countP (fun c => callKind node c == CallKind.success)
      = message.tool_calls.length := by
  refine ⟨?_, by simp, callKind_partition node message.tool_calls⟩
  simp only [ToolNode.func, hp]
  rw [mapEx_all_ok (fun a _ => run_one_handled node a hh)]

/-- Three invocations against `nodeBoth`: one unknown, one failing, one
succeeding. -/
def callsMixed : List ToolCall :=
  [⟨"weather", "x", "c1"⟩, ⟨"calc", "y", "c2"⟩, ⟨"search", "z", "c3"⟩]

/-- C1 witness at a concrete node and trigger. -/
theorem dispatch_isolated_shape_and_counts_witness :
    nodeBoth.func (.listInput [.ai ⟨callsMixed⟩]) =
      .ok (assemble .list (callsMixed.map (expectedRecord nodeBoth))) ∧
    (callsMixed.map (expectedRecord nodeBoth)).length = callsMixed.length ∧
    callsMixed.countP (fun c => callKind nodeBoth c == CallKind.unknown)
      + callsMixed.countP (fun c => callKind nodeBoth c == CallKind.failure)
      + callsMixed.countP (fun c => callKind nodeBoth c == CallKind.success)
      = callsMixed.length :=
  dispatch_isolated_shape_and_counts nodeBoth (.listInput [.ai ⟨callsMixed⟩])
    ⟨callsMixed⟩ .list rfl rfl

/-- C2 counterexample: the execution-failure record's content carries a
space after the newline (`"\n Please fix your mistakes."` in the source),
so it differs from the claimed template `"\nPlease fix your mistakes."`
at a concrete failing invocation. -/
theorem execution_failure_template_counterexample :
    nodeCalc.run_one callCalc =
      .ok ⟨"Error: boom\n Please fix your mistakes.", some "calc", "call-1"⟩ ∧
    "Error: boom\n Please fix your mistakes." ≠ "Error: boom\nPlease fix your mistakes." :=
  ⟨rfl, by decide⟩

/-- C2 (amended): when interception is on and the resolved tool raises
with description `e`, the dispatcher returns the record whose content is
`"Error: " ++ e ++ "\n Please fix your mistakes."` (space after the
newline), with name and call id taken from the invocation. -/
theorem execution_failure_record_amended (node : ToolNode) (call : ToolCall)
    (tool : Tool) (e : String)
    (hh : node.handle_tool_errors = true)
    (ht : lookupTool node.tools_by_name call.name = some tool)
    (he : tool call = .error e) :
    node.run_one call =
      .ok ⟨"Error: " ++ e ++ "\n Please fix your mistakes.", some call.name, call.id⟩ := by
  unfold ToolNode.run_one ToolNode.validate_tool_call
  simp [ht, he, hh, TOOL_CALL_ERROR_TEMPLATE]

/-- C2 witness at the concrete failing `calc` invocation. -/
theorem execution_failure_record_amended_witness :
    nodeCalc.run_one callCalc =
      .ok ⟨"Error: " ++ "boom" ++ "\n Please fix your mistakes.", some "calc", "call-1"⟩ :=
  execution_failure_record_amended nodeCalc callCalc failingTool "boom" rfl rfl rfl

/-- The records Scenario C produces. -/
def recordsScenarioC : List ToolMessage :=
  [⟨"result for a", some "search", "call-1"⟩,
   ⟨"Error: weather is not a valid tool, try one of [search].", some "weather", "call-w"⟩,
   ⟨"result for c", some "search", "call-3"⟩]

/-- C3: an invocation naming an action absent from the catalog yields the
templated unknown-tool record (requested name and comma-joined valid
names); and in Scenario C (three invocations, one naming `weather`
against a catalog with only `search`) the result has length 3 with the
`weather` record's content exactly as claimed. -/
theorem unknown_action_record :
    (∀ (node : ToolNode) (call : ToolCall),
      lookupTool node.tools_by_name call.name = none →
      node.run_one call =
        .ok ⟨INVALID_TOOL_NAME_ERROR_TEMPLATE call.name
               (String.intercalate ", " (toolNames node.tools_by_name)),
             some call.name, call.id⟩) ∧
    (nodeSearch.func (.listInput [.ai ⟨callsScenarioC⟩]) = .ok (.listOutput recordsScenarioC) ∧
      recordsScenarioC.length = 3 ∧
      recordsScenarioC[1]? =
        some ⟨"Error: weather is not a valid tool, try one of [search].",
              some "weather", "call-w"⟩) := by
  refine ⟨?_, rfl, rfl, rfl⟩
  intro node call hl
  unfold ToolNode.run_one ToolNode.validate_tool_call
  simp [hl]

/-- C3 witness: the general part applied to the concrete `weather` call. -/
theorem unknown_action_record_witness :
    nodeSearch.run_one ⟨"weather", "b", "call-w"⟩ =
      .ok ⟨INVALID_TOOL_NAME_ERROR_TEMPLATE "weather"
             (String.intercalate ", " (toolNames nodeSearch.tools_by_name)),
           some "weather", "call-w"⟩ :=
  unknown_action_record.1 nodeSearch ⟨"weather", "b", "call-w"⟩ rfl

/-- C4: with error interception disabled, a trigger containing at least
one invocation whose resolved tool raises makes the whole dispatch call
fail, producing no result list. -/
theorem unhandled_failure_propagates (node : ToolNode)
    (input : InputShape) (message : AIMessage) (ty : OutputType)
    (hh : node.handle_tool_errors = false)
    (hp : ToolNode.parse_input input = .ok (message, ty))
    (hf : ∃ c ∈ message.tool_calls, callKind node c = .failure) :
    ∃ e, node.func input = .error e := by
  obtain ⟨c, hc, hk⟩ := hf
  obtain ⟨e0, he0⟩ := mapEx_error_of_mem (f := node.run_one) (l := message.tool_calls)
    ⟨c, hc, run_one_unhandled_failure node c hh hk⟩
  exact ⟨e0, by simp only [ToolNode.func, hp, he0]⟩

/-- C4 witness at a concrete node with interception off. -/
theorem unhandled_failure_propagates_witness :
    ∃ e, nodeCalcOff.func (.listInput [.ai ⟨[callCalc]⟩]) = .error e :=
  unhandled_failure_propagates nodeCalcOff (.listInput [.ai ⟨[callCalc]⟩])
    ⟨[callCalc]⟩ .list rfl rfl (by decide)

/-- C5: the output shape mirrors the input shape — a bare sequence input
yields a bare sequence of records, a keyed container input yields the
records under the `messages` key. -/
theorem output_shape_mirrors_input (node : ToolNode) (input : InputShape)
    (out : OutputShape) (h : node.func input = .ok out) :
    (∀ msgs, input = .listInput msgs → ∃ records, out = .listOutput records) ∧
    (∀ messages, input = .dictInput messages → ∃ records, out = .dictOutput records) := by
  constructor
  · rintro msgs rfl
    cases hp : ToolNode.parse_input (.listInput msgs) with
    | error e => simp [ToolNode.func, hp] at h
    | ok p =>
      obtain ⟨m, ty⟩ := p
      obtain rfl := parse_input_list_ty msgs m ty hp
      cases hm : mapEx node.run_one m.tool_calls with
      | error e => simp [ToolNode.func, hp, hm] at h
      | ok outs =>
        refine ⟨outs, ?_⟩
        simp only [ToolNode.func, hp, hm, assemble] at h
        exact (Except.ok.inj h).symm
  · rintro messages rfl
    cases hp : ToolNode.parse_input (.dictInput messages) with
    | error e => simp [ToolNode.func, hp] at h
    | ok p =>
      obtain ⟨m, ty⟩ := p
      obtain rfl := parse_input_dict_ty messages m ty hp
      cases hm : mapEx node.run_one m.tool_calls with
      | error e => simp [ToolNode.func, hp, hm] at h
      | ok outs =>
        refine ⟨outs, ?_⟩
        simp only [ToolNode.func, hp, hm, assemble] at h
        exact (Except.ok.inj h).symm

/-- C5 witness: a bare-list trigger produces a bare-list output. -/
theorem output_shape_mirrors_input_witness :
    ∃ records, OutputShape.listOutput ([] : List ToolMessage) = .listOutput records :=
  (output_shape_mirrors_input nodeSearch (.listInput [.ai ⟨[]⟩])
    (.listOutput []) rfl).1 [.ai ⟨[]⟩] rfl

/-- C6: a trigger that does not resolve to an `AIMessage` carrier (empty
sequence, keyed container without messages, or a last message that is not
an `AIMessage`) makes dispatch fail as a whole, with no result records. -/
theorem malformed_trigger_fatal (node : ToolNode) (input : InputShape)
    (h : wellFormedTrigger input = false) :
    ∃ e, node.func input = .error e := by
  cases input with
  | listInput msgs =>
    cases hl : msgs.getLast? with
    | none =>
      exact ⟨"IndexError: list index out of range",
        by simp [ToolNode.func, ToolNode.parse_input, hl]⟩
    | some msg =>
      cases msg with
      | ai m => simp [wellFormedTrigger, hl] at h
      | other =>
        exact ⟨"Last message is not an AIMessage",
          by simp [ToolNode.func, ToolNode.parse_input, hl]⟩
  | dictInput messages =>
    cases hl : messages.getLast? with
    | none =>
      exact ⟨"No message found in input",
        by simp [ToolNode.func, ToolNode.parse_input, hl]⟩
    | some msg =>
      cases msg with
      | ai m => simp [wellFormedTrigger, hl] at h
      | other =>
        exact ⟨"Last message is not an AIMessage",
          by simp [ToolNode.func, ToolNode.parse_input, hl]⟩

/-- C6 witness: a bare list whose last element is not an `AIMessage`. -/
theorem malformed_trigger_fatal_witness :
    ∃ e, nodeSearch.func (.listInput [AnyMessage.other]) = .error e :=
  malformed_trigger_fatal nodeSearch (.listInput [AnyMessage.other]) rfl

/-- C9: a well-formed trigger whose carrier has zero tool calls dispatches
successfully to an empty result collection in the mirrored shape. -/
theorem empty_tool_calls_ok (node : ToolNode) (input : InputShape)
    (message : AIMessage) (ty : OutputType)
    (hp : ToolNode.parse_input input = .ok (message, ty))
    (hz : message.tool_calls = []) :
    node.func input = .ok (assemble ty []) := by
  simp only [ToolNode.func, hp, hz]
  rfl

/-- C9 witness: a keyed container whose carrier has no tool calls. -/
theorem empty_tool_calls_ok_witness :
    nodeSearch.func (.dictInput [.ai ⟨[]⟩]) = .ok (assemble .dict []) :=
  empty_tool_calls_ok nodeSearch (.dictInput [.ai ⟨[]⟩]) ⟨[]⟩ .dict rfl rfl

/-- C10: `tools_condition` answers `"tools"` exactly when the state's last
message exists and has non-empty `tool_calls`, `"__end__"` exactly when
the last message exists without them, and raises exactly when the state
carries no messages. -/
theorem tools_condition_spec (state : InputShape) :
    (tools_condition state = .ok "tools" ↔
      ∃ m, (stateMessages state).getLast? = some m ∧ hasCalls m = true) ∧
    (tools_condition state = .ok "__end__" ↔
      ∃ m, (stateMessages state).getLast? = some m ∧ hasCalls m = false) ∧
    ((∃ e, tools_condition state = .error e) ↔ stateMessages state = []) := by
  cases state with
  | listInput msgs =>
    cases hl : msgs.getLast? with
    | none =>
      obtain rfl := List.getLast?_eq_none_iff.mp hl
      simp [tools_condition, stateMessages]
    | some m =>
      have hne : msgs ≠ [] := by intro hn; rw [hn] at hl; simp at hl
      by_cases hc : hasCalls m <;>
        simp +decide [tools_condition, stateMessages, hl, hc, hne]
  | dictInput messages =>
    cases hl : messages.getLast? with
    | none =>
      obtain rfl := List.getLast?_eq_none_iff.mp hl
      simp [tools_condition, stateMessages]
    | some m =>
      have hne : messages ≠ [] := by intro hn; rw [hn] at hl; simp at hl
      by_cases hc : hasCalls m <;>
        simp +decide [tools_condition, stateMessages, hl, hc, hne]

/-- C10 witness: a carrier with one tool call routes to `"tools"`. -/
theorem tools_condition_spec_witness :
    tools_condition (.listInput [.ai ⟨[callCalc]⟩]) = .ok "tools" :=
  (tools_condition_spec (.listInput [.ai ⟨[callCalc]⟩])).1.mpr ⟨.ai ⟨[callCalc]⟩, rfl, rfl⟩

/-- C7: a list query supplying a thread but no namespace returns exactly
the checkpoints stored under the root namespace for that thread; in the
Scenario A store, listing thread-2 alone returns exactly the root entry
and listing thread-2 with namespace `inner` returns exactly the inner
entry. -/
theorem list_scopes_to_root_namespace :
    (∀ (store : MemStore) (t : String) (e : StoredCheckpoint),
      e ∈ listCheckpoints store ⟨some t, none⟩ [] ↔
        e ∈ store ∧ e.thread_id = t ∧ e.checkpoint_ns = "") ∧
    listCheckpoints scenarioStore ⟨some "thread-2", none⟩ [] = [chk_2] ∧
    listCheckpoints scenarioStore ⟨some "thread-2", some "inner"⟩ [] = [chk_3] := by
  refine ⟨?_, by decide, by decide⟩
  intro store t e
  rw [mem_listCheckpoints]
  simp [inScope, scopedNs, metadataMatches]

/-- C7 witness: the root-namespace entry of thread-2 is the listed one. -/
theorem list_scopes_to_root_namespace_witness :
    chk_2 ∈ scenarioStore ∧ chk_2.thread_id = "thread-2" ∧ chk_2.checkpoint_ns = "" :=
  (list_scopes_to_root_namespace.1 scenarioStore "thread-2" chk_2).mp (by decide)

/-- C8: a checkpoint is listed iff it is in scope and every filter key is
present in its metadata with a structurally equal value; the empty filter
matches everything, and the Scenario B metadata matches
`{source: input}` but not `{step: 1, writes: {foo: bar}}`. -/
theorem filter_is_submapping_match :
    (∀ (filter md : Metadata),
      metadataMatches filter md = true ↔
        ∀ kv ∈ filter, md.lookup kv.1 = some kv.2) ∧
    (∀ md : Metadata, metadataMatches [] md = true) ∧
    (∀ (store : MemStore) (q : ListQuery) (filter : Metadata) (e : StoredCheckpoint),
      e ∈ listCheckpoints store q filter ↔
        e ∈ listCheckpoints store q [] ∧ metadataMatches filter e.metadata = true) ∧
    metadataMatches [("source", MetaV.s "input")] metadata_1 = true ∧
    metadataMatches [("step", MetaV.i 1), ("writes", MetaV.m [("foo", "bar")])] metadata_1
      = false := by
  refine ⟨?_, fun md => rfl, ?_, by decide, by decide⟩
  · intro filter md
    simp [metadataMatches, List.all_eq_true]
  · intro store q filter e
    rw [mem_listCheckpoints, mem_listCheckpoints]
    simp [metadataMatches]
    tauto

/-- C8 witness: Scenario B's matching filter, through the general part. -/
theorem filter_is_submapping_match_witness :
    ∀ kv ∈ ([("source", MetaV.s "input")] : Metadata),
      metadata_1.lookup kv.1 = some kv.2 :=
  (filter_is_submapping_match.1 [("source", MetaV.s "input")] metadata_1).mp (by decide)

end LangGraph
